import Mathlib

/-
  Verification development for the cc-manager core.

  Shallow embedding of the run lifecycle orchestrator
  (src/core/run-manager.ts), the batched stream recorder
  (src/core/stream-recorder.ts), the turn-gate executor
  (src/core/executor.ts) and the lifecycle webhook dispatcher
  (src/core/webhook.ts).

  Asynchronous effects are linearized in the order the JavaScript code
  performs its awaits; the execution provider is abstracted as the list of
  messages it yields (optionally followed by a raised exception); the
  persistence collaborator is the explicit DB record of both tables; timers
  of the batched recorder are explicit events in a schedule.
-/

namespace CCManager

/-- Run mode, from src/types.ts. -/
inductive RunMode where
  | fresh
  | resume
  | fork
  deriving DecidableEq, Repr

/-- Run status, from src/types.ts. -/
inductive RunStatus where
  | running
  | completed
  | error
  | cancelled
  deriving DecidableEq, Repr

/-- The parts of an SDK message the core inspects: the type tag, the
optional subtype and the session id carried by init messages. -/
structure SDKMessage where
  type : String
  subtype : Option String
  sessionId : String
  deriving DecidableEq, Repr

/-- Stand-in for JSON.stringify on a message: a fixed injective rendering
of the inspected fields. -/
def stringifyMessage (m : SDKMessage) : String :=
  "(type=" ++ m.type ++ ";subtype="
    ++ (match m.subtype with | some s => s | none => "null")
    ++ ";session_id=" ++ m.sessionId ++ ")"

/-- Stand-in for JSON.stringify of the error object built in the catch
blocks of start and executeRun. -/
def stringifyError (emsg : String) : String :=
  "(error=" ++ emsg ++ ")"

/-- A row of the ccr_runs table, from src/db/schema.ts. -/
structure RunRow where
  id : String
  cwd : String
  sessionId : String
  parentSessionId : Option String
  mode : RunMode
  status : RunStatus
  prompt : String
  resultType : Option String
  resultJson : Option String
  durationMs : Option Nat
  createdAt : String
  deriving DecidableEq, Repr

/-- A row of the ccr_run_messages table, from src/db/schema.ts
(the autoincrement surrogate id column is omitted; no code reads it). -/
structure RunMessageRow where
  runId : String
  index : Nat
  messageType : String
  messageJson : String
  createdAt : String
  deriving DecidableEq, Repr

/-- An ActiveRun entry, from src/types.ts.  The AbortController is
modelled by the aborted flag it carries. -/
structure ActiveRun where
  runId : String
  sessionId : String
  mode : RunMode
  status : RunStatus
  startedAt : String
  aborted : Bool
  webhookUrl : Option String
  deriving DecidableEq, Repr

/-- A lifecycle notification handed to the webhook dispatcher,
from src/core/webhook.ts. -/
structure WebhookEvent where
  event : String
  runId : String
  sessionId : String
  timestamp : String
  deriving DecidableEq, Repr

/-- The persistence collaborator: both tables. -/
structure DB where
  runs : List RunRow
  runMessages : List RunMessageRow
  deriving DecidableEq, Repr

/-- Process-wide orchestrator state: the database, the activeRuns registry
of src/core/run-manager.ts, and the trace of dispatched lifecycle
notifications. -/
structure ManagerState where
  db : DB
  activeRuns : List ActiveRun
  webhookEvents : List WebhookEvent
  deriving DecidableEq, Repr

/-- The service errors a run-manager entry point can throw,
from src/errors.ts. -/
inductive RunError where
  | validation (field : String)
  | sessionNotFound (sessionId : String)
  | runAlreadyCompleted (runId : String)
  deriving DecidableEq, Repr

/-- The RunResult value returned by start, resume and fork,
from src/types.ts. -/
structure RunResult where
  runId : String
  sessionId : String
  parentSessionId : Option String
  mode : RunMode
  status : RunStatus
  durationMs : Nat
  result : Option SDKMessage
  error : Option String
  deriving DecidableEq, Repr

/-- StartParams, from src/types.ts (images and SDK options flow only to
the provider, which is abstracted out; webhookUrl exists in the TS type
but is never consumed by run-manager.ts). -/
structure StartParams where
  cwd : String
  prompt : String
  webhookUrl : Option String := none
  deriving Repr

/-- ResumeParams, from src/types.ts. -/
structure ResumeParams where
  sessionId : String
  prompt : String
  webhookUrl : Option String := none
  deriving Repr

/-- ForkParams, from src/types.ts. -/
structure ForkParams where
  sessionId : String
  prompt : String
  webhookUrl : Option String := none
  deriving Repr

/-- What the provider stream does during a run: it yields some messages
and then either ends normally or raises an exception (the message list of
the err case is what was delivered before the raise). -/
inductive StreamOutcome where
  | ok (msgs : List SDKMessage)
  | err (msgs : List SDKMessage) (emsg : String)
  deriving Repr

/-- Conditional in-place update of the rows matched by a predicate,
modelling an UPDATE ... WHERE and the Map-entry mutation. -/
def updateWhere (l : List α) (q : α → Bool) (f : α → α) : List α :=
  l.map (fun a => if q a then f a else a)

/-- Lookup of a run row by id (select ... where eq(id) limit 1). -/
def DB.findRun? (db : DB) (runId : String) : Option RunRow :=
  db.runs.find? (fun r => r.id == runId)

/-- getActiveRun of src/core/run-manager.ts: registry lookup. -/
def getActiveRun (st : ManagerState) (runId : String) : Option ActiveRun :=
  st.activeRuns.find? (fun a => a.runId == runId)

/-- dispatchWebhook of src/core/webhook.ts: fire-and-forget append of an
outbound lifecycle notification.  Defined here because the module exists,
but note that no code in run-manager.ts ever invokes it. -/
def dispatchWebhook (e : WebhookEvent) (st : ManagerState) : ManagerState :=
  { st with webhookEvents := st.webhookEvents ++ [e] }

/-! ## Batched recorder (src/core/stream-recorder.ts, createSink) -/

/-- Internal state of one recorder sink: the next index, the buffered
batch, whether a flush timer is pending, the rows successfully inserted so
far, the number of insert attempts performed (= flushes that reached the
DB call), and whether the sink has errored (a write-path flush rejection
errors the WritableStream). -/
structure SinkState where
  index : Nat
  batch : List RunMessageRow
  timerSet : Bool
  inserted : List RunMessageRow
  attempts : Nat
  errored : Bool
  deriving DecidableEq, Repr

/-- Initial sink state of createSink. -/
def sinkInit : SinkState :=
  { index := 0, batch := [], timerSet := false, inserted := [],
    attempts := 0, errored := false }

/-- Events a live sink experiences: a message written to it, or the flush
interval elapsing. -/
inductive SinkEvent where
  | write (m : SDKMessage)
  | timerFire
  deriving Repr

/-- The flush closure of createSink: no-op on an empty batch; otherwise
take the batch, reset it, clear the timer and attempt one multi-row
insert.  The oracle failAt says which insert attempts reject; the Bool
result is whether this flush threw.  On a rejection the taken rows are
lost (the buffer was already reset). -/
def flushStep (failAt : Nat → Bool) (s : SinkState) : SinkState × Bool :=
  if s.batch.length = 0 then (s, false)
  else
    let toInsert := s.batch
    let s1 : SinkState :=
      { s with batch := [], timerSet := false, attempts := s.attempts + 1 }
    if failAt s.attempts then (s1, true)
    else ({ s1 with inserted := s1.inserted ++ toInsert }, false)

/-- The RunMessage record built for one incoming message. -/
def sinkRecord (runId : String) (now : String) (s : SinkState)
    (m : SDKMessage) : RunMessageRow :=
  { runId := runId, index := s.index, messageType := m.type,
    messageJson := stringifyMessage m, createdAt := now }

/-- Assign the next sequential index and buffer the record. -/
def sinkPush (runId : String) (now : String) (s : SinkState)
    (m : SDKMessage) : SinkState :=
  { s with index := s.index + 1, batch := s.batch ++ [sinkRecord runId now s m] }

/-- The write handler of the sink: assign the next index, buffer the
record; flush when the buffer reached batchSize (a rejection here errors
the stream), otherwise schedule the timer.  A sink that has errored no
longer receives writes. -/
def sinkWrite (runId : String) (batchSize : Nat) (failAt : Nat → Bool)
    (now : String) (s : SinkState) (m : SDKMessage) : SinkState :=
  if s.errored then s
  else
    let s1 := sinkPush runId now s m
    if batchSize ≤ s1.batch.length then
      let fr := flushStep failAt s1
      if fr.2 then { fr.1 with errored := true } else fr.1
    else if s1.timerSet then s1
    else { s1 with timerSet := true }

/-- One scheduling step of the sink.  A timer that fires runs flush with
its rejection caught and only logged (the thrown flag is dropped). -/
def sinkStep (runId : String) (batchSize : Nat) (failAt : Nat → Bool)
    (now : String) (s : SinkState) : SinkEvent → SinkState
  | SinkEvent.write m => sinkWrite runId batchSize failAt now s m
  | SinkEvent.timerFire =>
      if s.errored then s
      else if s.timerSet then (flushStep failAt s).1
      else s

/-- Run the sink over a schedule of events. -/
def runSink (runId : String) (batchSize : Nat) (failAt : Nat → Bool)
    (now : String) (events : List SinkEvent) (s : SinkState) : SinkState :=
  events.foldl (sinkStep runId batchSize failAt now) s

/-- The close (and abort) handler: one final flush of whatever is
buffered; its rejection propagates to pipeTo.  A sink that already
errored was already torn down by pipeTo and is not closed again. -/
def closeSink (failAt : Nat → Bool) (s : SinkState) : SinkState × Bool :=
  if s.errored then (s, false) else flushStep failAt s

/-- Number of write events in a sink schedule. -/
def writesCount : List SinkEvent → Nat
  | [] => 0
  | SinkEvent.write _ :: rest => writesCount rest + 1
  | SinkEvent.timerFire :: rest => writesCount rest

/-- The recording branch as launched by processStream: createSink with
default options (batchSize 50), fed every teed message in order, then
closed (on source end) or aborted (on source error); both paths run the
same final flush.  The flush interval never elapsing within the run is
the schedule used by the integrated run model; timer behaviour is proved
on runSink directly. -/
def recordBranch (runId : String) (failAt : Nat → Bool) (now : String)
    (msgs : List SDKMessage) : SinkState :=
  (closeSink failAt
    (runSink runId 50 failAt now (msgs.map SinkEvent.write) sinkInit)).1

/-! ## Turn gate (src/core/executor.ts, execute) -/

/-- State of one turn-gate bridge: the messages pulled from the provider
output so far, whether the receivedResult promise has been resolved
(done() called), and whether the input-producing generator has completed,
signalling end-of-input on the provider input channel. -/
structure GateState where
  pulled : List SDKMessage
  resultResolved : Bool
  inputClosed : Bool
  deriving DecidableEq, Repr

/-- Scheduling events of the bridge: the consumer pulls the next provider
message, or the input generator task is resumed by the scheduler. -/
inductive GateEvent where
  | pull (m : SDKMessage)
  | genResume
  deriving Repr

/-- One step of the bridge.  A pull records the message and resolves the
promise exactly when the pulled value has type result; the generator,
when resumed, can move past its await (and thereby complete, closing the
input channel) only once the promise is resolved. -/
def gateStep (s : GateState) : GateEvent → GateState
  | GateEvent.pull m =>
      { s with pulled := s.pulled ++ [m],
               resultResolved := s.resultResolved || (m.type == "result") }
  | GateEvent.genResume =>
      if s.resultResolved then { s with inputClosed := true } else s

/-- Initial bridge state: nothing pulled, promise pending, input open. -/
def gateInit : GateState :=
  { pulled := [], resultResolved := false, inputClosed := false }

/-- Run the bridge over a schedule of events. -/
def gateRun (events : List GateEvent) : GateState :=
  events.foldl gateStep gateInit

/-! ## Run orchestrator (src/core/run-manager.ts) -/

/-- Model of the emptiness test v.trim().length === 0 (together with the
falsiness test on v) used by the input validation: true when the string
has no non-whitespace character. -/
def isBlank (s : String) : Bool :=
  s.data.all (fun c => c == ' ' || c == '\t' || c == '\n' || c == '\r')

/-- Is this the init-type system message of the provider? -/
def isInitMsg (m : SDKMessage) : Bool :=
  m.type == "system" && m.subtype == some ("init")

/-- State of the processing loop of processStream, together with the
registry and runs-table rows it mutates.  sessionWrites counts executions
of the init-capture branch (the single step that writes the session id to
both the ActiveRun and the run row). -/
structure LoopState where
  activeRuns : List ActiveRun
  dbRuns : List RunRow
  capturedSessionId : String
  resultMessage : Option SDKMessage
  sessionWrites : Nat
  deriving Repr

/-- One iteration of the processing loop: on the init-type system message
capture the session id into the ActiveRun entry and the run row; on a
result-type message retain it as the candidate outcome. -/
def loopStep (runId : String) (st : LoopState) (m : SDKMessage) : LoopState :=
  let st :=
    if isInitMsg m then
      { st with
        capturedSessionId := m.sessionId,
        activeRuns := updateWhere st.activeRuns (fun a => a.runId == runId)
          (fun a => { a with sessionId := m.sessionId }),
        dbRuns := updateWhere st.dbRuns (fun r => r.id == runId)
          (fun r => { r with sessionId := m.sessionId }),
        sessionWrites := st.sessionWrites + 1 }
    else st
  if m.type == "result" then { st with resultMessage := some m } else st

/-- The processing loop over the delivered messages. -/
def runLoop (runId : String) (msgs : List SDKMessage) (st : LoopState) : LoopState :=
  msgs.foldl (loopStep runId) st

/-- The loop state at entry of processStream for a given manager state. -/
def initLoop (st : ManagerState) : LoopState :=
  { activeRuns := st.activeRuns, dbRuns := st.db.runs,
    capturedSessionId := "", resultMessage := none, sessionWrites := 0 }

/-- Admission prologue shared by start and executeRun: register the
ActiveRun (status running, empty session id) and insert the Run row. -/
def admitRun (runId cwd prompt : String) (mode : RunMode)
    (parentSessionId : Option String) (createdAt : String)
    (st : ManagerState) : ManagerState :=
  let activeRun : ActiveRun :=
    { runId := runId, sessionId := "", mode := mode, status := RunStatus.running,
      startedAt := createdAt, aborted := false, webhookUrl := none }
  { st with
    activeRuns := st.activeRuns ++ [activeRun],
    db := { st.db with runs := st.db.runs ++ [{
      id := runId, cwd := cwd, sessionId := "", parentSessionId := parentSessionId,
      mode := mode, status := RunStatus.running, prompt := prompt,
      resultType := none, resultJson := none, durationMs := none,
      createdAt := createdAt }] } }

/-- The try/catch body shared by start and executeRun after admission:
tee the stream into the recording sink and the processing loop; classify
the outcome (error-prefixed result subtype means status error); persist
status, resultType (skipped when undefined), resultJson, durationMs;
deregister; return the RunResult.  A stream exception lands in the catch
block: persist status error with the serialized message, deregister, and
return a RunResult with status error. -/
def runBody (runId : String) (mode : RunMode) (parentSessionId : Option String)
    (outcome : StreamOutcome) (durationMs : Nat) (failAt : Nat → Bool)
    (now : String) (st : ManagerState) : ManagerState × Except RunError RunResult :=
  match outcome with
  | StreamOutcome.ok msgs =>
      let ls := runLoop runId msgs (initLoop st)
      let isError :=
        match ls.resultMessage with
        | some m => match m.subtype with
                    | some s => s.startsWith ("error")
                    | none => false
        | none => false
      let status := if isError then RunStatus.error else RunStatus.completed
      let dbRuns := updateWhere ls.dbRuns (fun r => r.id == runId) (fun r =>
        { r with
          status := status,
          resultType := match ls.resultMessage with
            | some m => match m.subtype with
                        | some s => some s
                        | none => r.resultType
            | none => r.resultType,
          resultJson := match ls.resultMessage with
            | some m => some (stringifyMessage m)
            | none => none,
          durationMs := some durationMs })
      ({ db := { runs := dbRuns,
                 runMessages := st.db.runMessages ++ (recordBranch runId failAt now msgs).inserted },
         activeRuns := ls.activeRuns.filter (fun a => !(a.runId == runId)),
         webhookEvents := st.webhookEvents },
       Except.ok
         { runId := runId, sessionId := ls.capturedSessionId,
           parentSessionId := parentSessionId, mode := mode, status := status,
           durationMs := durationMs, result := ls.resultMessage, error := none })
  | StreamOutcome.err msgs emsg =>
      let ls := runLoop runId msgs (initLoop st)
      let dbRuns := updateWhere ls.dbRuns (fun r => r.id == runId) (fun r =>
        { r with
          status := RunStatus.error,
          resultJson := some (stringifyError emsg),
          durationMs := some durationMs })
      ({ db := { runs := dbRuns,
                 runMessages := st.db.runMessages ++ (recordBranch runId failAt now msgs).inserted },
         activeRuns := ls.activeRuns.filter (fun a => !(a.runId == runId)),
         webhookEvents := st.webhookEvents },
       Except.ok
         { runId := runId, sessionId := ls.capturedSessionId,
           parentSessionId := parentSessionId, mode := mode,
           status := RunStatus.error, durationMs := durationMs,
           result := none, error := some emsg })

/-- start of src/core/run-manager.ts: validate prompt and cwd, admit a
fresh run, execute. -/
def start (p : StartParams) (runId createdAt now : String)
    (outcome : StreamOutcome) (durationMs : Nat) (failAt : Nat → Bool)
    (st : ManagerState) : ManagerState × Except RunError RunResult :=
  if isBlank p.prompt then (st, Except.error (RunError.validation ("prompt")))
  else if isBlank p.cwd then (st, Except.error (RunError.validation ("cwd")))
  else
    runBody runId RunMode.fresh none outcome durationMs failAt now
      (admitRun runId p.cwd p.prompt RunMode.fresh none createdAt st)

/-- resume of src/core/run-manager.ts: validate prompt and sessionId,
look up any run row with that session id to obtain cwd (SessionNotFound
when absent, before any provider call or insert), then executeRun with
mode resume. -/
def resume (p : ResumeParams) (runId createdAt now : String)
    (outcome : StreamOutcome) (durationMs : Nat) (failAt : Nat → Bool)
    (st : ManagerState) : ManagerState × Except RunError RunResult :=
  if isBlank p.prompt then (st, Except.error (RunError.validation ("prompt")))
  else if isBlank p.sessionId then (st, Except.error (RunError.validation ("sessionId")))
  else
    match st.db.runs.find? (fun r => r.sessionId == p.sessionId) with
    | none => (st, Except.error (RunError.sessionNotFound p.sessionId))
    | some firstRun =>
        runBody runId RunMode.resume (some p.sessionId) outcome durationMs failAt now
          (admitRun runId firstRun.cwd p.prompt RunMode.resume (some p.sessionId) createdAt st)

/-- fork of src/core/run-manager.ts: identical to resume except for the
mode recorded. -/
def fork (p : ForkParams) (runId createdAt now : String)
    (outcome : StreamOutcome) (durationMs : Nat) (failAt : Nat → Bool)
    (st : ManagerState) : ManagerState × Except RunError RunResult :=
  if isBlank p.prompt then (st, Except.error (RunError.validation ("prompt")))
  else if isBlank p.sessionId then (st, Except.error (RunError.validation ("sessionId")))
  else
    match st.db.runs.find? (fun r => r.sessionId == p.sessionId) with
    | none => (st, Except.error (RunError.sessionNotFound p.sessionId))
    | some firstRun =>
        runBody runId RunMode.fork (some p.sessionId) outcome durationMs failAt now
          (admitRun runId firstRun.cwd p.prompt RunMode.fork (some p.sessionId) createdAt st)

/-- cancel of src/core/run-manager.ts: require an ActiveRun entry, else
RunAlreadyCompleted; otherwise abort the controller, mark and persist
status cancelled, and deregister. -/
def cancel (runId : String) (st : ManagerState) : ManagerState × Except RunError Unit :=
  match st.activeRuns.find? (fun a => a.runId == runId) with
  | none => (st, Except.error (RunError.runAlreadyCompleted runId))
  | some _ =>
      let active1 := updateWhere st.activeRuns (fun a => a.runId == runId)
        (fun a => { a with aborted := true, status := RunStatus.cancelled })
      let dbRuns := updateWhere st.db.runs (fun r => r.id == runId)
        (fun r => { r with status := RunStatus.cancelled })
      ({ st with
          db := { st.db with runs := dbRuns },
          activeRuns := active1.filter (fun a => !(a.runId == runId)) },
       Except.ok ())

/-! ## Generic lookup lemmas -/

/-- Finding by a predicate after a conditional update that preserves the
predicate finds the updated element. -/
theorem find?_updateWhere (l : List α) (q : α → Bool) (f : α → α)
    (hf : ∀ a, q (f a) = q a) :
    (updateWhere l q f).find? q = (l.find? q).map f := by
  induction l with
  | nil => rfl
  | cons a rest ih =>
      cases h : q a with
      | true =>
          have hfa : q (f a) = true := by rw [hf]; exact h
          simp [updateWhere, h, hfa, List.find?_cons_of_pos]
      | false =>
          have hm : (updateWhere (a :: rest) q f)
              = a :: updateWhere rest q f := by
            simp [updateWhere, h]
          rw [hm, List.find?_cons_of_neg _ (by simp [h]),
              List.find?_cons_of_neg _ (by simp [h]), ih]

/-- Finding skips a whole prefix-block on which the predicate is false. -/
theorem find?_append_of_none (l1 l2 : List α) (q : α → Bool)
    (h : ∀ x ∈ l1, q x = false) :
    (l1 ++ l2).find? q = l2.find? q := by
  induction l1 with
  | nil => rfl
  | cons a rest ih =>
      rw [List.cons_append, List.find?_cons_of_neg _ (by simp [h a (by simp)])]
      exact ih (fun x hx => h x (by simp [hx]))

/-- Nothing satisfying the predicate survives filtering by its negation. -/
theorem find?_filter_not (l : List α) (q : α → Bool) :
    (l.filter (fun a => !(q a))).find? q = none := by
  rw [List.find?_eq_none]
  intro x hx
  have hx2 := (List.mem_filter.mp hx).2
  simp only [Bool.not_eq_true'] at hx2
  simp [hx2]

/-! ## Recorder lemmas -/

/-- The flush closure never changes index or the errored flag, and always
leaves the buffer empty afterwards. -/
theorem flushStep_fields (failAt : Nat → Bool) (s : SinkState) :
    (flushStep failAt s).1.index = s.index
    ∧ (flushStep failAt s).1.errored = s.errored
    ∧ (flushStep failAt s).1.batch = [] := by
  unfold flushStep
  by_cases h : s.batch.length = 0
  · refine ⟨by simp [h], by simp [h], ?_⟩
    simp only [h, if_pos]
    exact List.length_eq_zero.mp h
  · by_cases hf : failAt s.attempts = true <;> simp [h, hf]

/-- When no insert attempt rejects, a flush never throws and moves the
whole buffer into the inserted rows. -/
theorem flushStep_noFail (failAt : Nat → Bool) (hfail : ∀ k, failAt k = false)
    (s : SinkState) :
    (flushStep failAt s).2 = false
    ∧ (flushStep failAt s).1.inserted = s.inserted ++ s.batch := by
  unfold flushStep
  by_cases h : s.batch.length = 0
  · refine ⟨by simp [h], ?_⟩
    simp [h, List.length_eq_zero.mp h]
  · simp [h, hfail s.attempts]

/-- Step lemma: with a never-failing persistence collaborator, one sink
event keeps the sink healthy, keeps the recorded-then-buffered index
sequence equal to the contiguous range of assigned indices, and advances
index exactly on writes. -/
theorem sinkStep_noFail_range (runId : String) (B : Nat) (failAt : Nat → Bool)
    (now : String) (hfail : ∀ k, failAt k = false) (s : SinkState) (e : SinkEvent)
    (herr : s.errored = false)
    (hrange : s.inserted.map (fun r => r.index) ++ s.batch.map (fun r => r.index)
        = List.range s.index) :
    (sinkStep runId B failAt now s e).errored = false
    ∧ ((sinkStep runId B failAt now s e).inserted.map (fun r => r.index)
        ++ (sinkStep runId B failAt now s e).batch.map (fun r => r.index)
        = List.range (sinkStep runId B failAt now s e).index)
    ∧ (sinkStep runId B failAt now s e).index
        = s.index + (match e with | SinkEvent.write _ => 1 | SinkEvent.timerFire => 0) := by
  cases e with
  | write m =>
      simp only [sinkStep, sinkWrite, herr, Bool.false_eq_true, if_false]
      have hrange1 : (sinkPush runId now s m).inserted.map (fun r => r.index)
          ++ (sinkPush runId now s m).batch.map (fun r => r.index)
          = List.range (sinkPush runId now s m).index := by
        simp only [sinkPush, sinkRecord, List.map_append, List.map_cons, List.map_nil,
          List.range_succ, ← List.append_assoc, hrange]
      by_cases hb : B ≤ (sinkPush runId now s m).batch.length
      · obtain ⟨hthrew, hins⟩ := flushStep_noFail failAt hfail (sinkPush runId now s m)
        obtain ⟨hidx, herr1, hbatch1⟩ := flushStep_fields failAt (sinkPush runId now s m)
        simp only [hb, if_pos, hthrew, Bool.false_eq_true, if_false]
        refine ⟨by rw [herr1]; simp [sinkPush, herr], ?_, by rw [hidx]; simp [sinkPush]⟩
        rw [hins, hbatch1, hidx]
        simpa using hrange1
      · simp only [hb, if_neg, if_false]
        by_cases ht : (sinkPush runId now s m).timerSet = true
        · simp only [ht, if_pos, if_true]
          exact ⟨by simp [sinkPush, herr], hrange1, by simp [sinkPush]⟩
        · simp only [ht, Bool.false_eq_true, if_false]
          refine ⟨by simp [sinkPush, herr], ?_, by simp [sinkPush]⟩
          simpa [sinkPush, sinkRecord] using hrange1
  | timerFire =>
      simp only [sinkStep, herr, Bool.false_eq_true, if_false]
      by_cases ht : s.timerSet = true
      · obtain ⟨hthrew, hins⟩ := flushStep_noFail failAt hfail s
        obtain ⟨hidx, herr1, hbatch1⟩ := flushStep_fields failAt s
        simp only [ht, if_pos, if_true]
        refine ⟨by simp [herr1, herr], ?_, by simp [hidx]⟩
        rw [hins, hbatch1, hidx]
        simpa using hrange
      · simp only [ht, Bool.false_eq_true, if_false]
        exact ⟨herr, hrange, by simp⟩

/-- Fold lemma: over any schedule, with a never-failing persistence
collaborator, the sink stays healthy, the recorded-then-buffered indices
stay contiguous, and index counts exactly the writes. -/
theorem runSink_noFail_range (runId : String) (B : Nat) (failAt : Nat → Bool)
    (now : String) (hfail : ∀ k, failAt k = false) (events : List SinkEvent)
    (s : SinkState) (herr : s.errored = false)
    (hrange : s.inserted.map (fun r => r.index) ++ s.batch.map (fun r => r.index)
        = List.range s.index) :
    (runSink runId B failAt now events s).errored = false
    ∧ ((runSink runId B failAt now events s).inserted.map (fun r => r.index)
        ++ (runSink runId B failAt now events s).batch.map (fun r => r.index)
        = List.range (runSink runId B failAt now events s).index)
    ∧ (runSink runId B failAt now events s).index = s.index + writesCount events := by
  induction events generalizing s with
  | nil => exact ⟨herr, hrange, by simp [runSink, writesCount]⟩
  | cons e rest ih =>
      obtain ⟨herr1, hrange1, hidx1⟩ :=
        sinkStep_noFail_range runId B failAt now hfail s e herr hrange
      obtain ⟨herr2, hrange2, hidx2⟩ :=
        ih (sinkStep runId B failAt now s e) herr1 hrange1
      refine ⟨herr2, hrange2, ?_⟩
      rw [show runSink runId B failAt now (e :: rest) s
            = runSink runId B failAt now rest (sinkStep runId B failAt now s e) from rfl,
          hidx2, hidx1]
      cases e
      · simp only [writesCount]
        omega
      · simp only [writesCount]
        omega

/-- C5: for every run, every batch size and every schedule, when the
persistence collaborator accepts every insert, the recorded RunMessage
index values after close form exactly the contiguous range 0..N-1 for the
N messages the sink received. -/
theorem recorder_indices_contiguous (runId : String) (B : Nat)
    (failAt : Nat → Bool) (now : String) (events : List SinkEvent)
    (hfail : ∀ k, failAt k = false) :
    ((closeSink failAt (runSink runId B failAt now events sinkInit)).1.inserted.map
        (fun r => r.index)) = List.range (writesCount events) := by
  obtain ⟨herr, hrange, hidx⟩ :=
    runSink_noFail_range runId B failAt now hfail events sinkInit rfl (by simp [sinkInit])
  unfold closeSink
  rw [if_neg (by simp [herr])]
  obtain ⟨-, hins⟩ := flushStep_noFail failAt hfail (runSink runId B failAt now events sinkInit)
  rw [hins, List.map_append, hrange, hidx]
  simp [sinkInit]

/-- Witness for C5: a concrete schedule of three writes and an
interleaved timer fire, with batch size two, records indices 0,1,2. -/
theorem recorder_indices_contiguous_witness :
    ((closeSink (fun _ => false)
        (runSink ("r1") 2 (fun _ => false) ("t0")
          [SinkEvent.write { type := "system", subtype := some ("init"), sessionId := "s1" },
           SinkEvent.timerFire,
           SinkEvent.write { type := "assistant", subtype := none, sessionId := "s1" },
           SinkEvent.write { type := "result", subtype := some ("success"), sessionId := "s1" }]
          sinkInit)).1.inserted.map (fun r => r.index))
      = List.range 3 :=
  recorder_indices_contiguous ("r1") 2 (fun _ => false) ("t0") _ (fun _ => rfl)

/-- A successful flush keeps the inserted rows bounded by batchSize times
the number of insert attempts, provided the buffer it delivers is itself
bounded by batchSize. -/
theorem flushStep_noFail_bound (failAt : Nat → Bool) (hfail : ∀ k, failAt k = false)
    (s : SinkState) (B : Nat) (hbatch : s.batch.length ≤ B)
    (hbound : s.inserted.length ≤ B * s.attempts) :
    (flushStep failAt s).1.inserted.length ≤ B * (flushStep failAt s).1.attempts := by
  unfold flushStep
  by_cases h : s.batch.length = 0
  · simpa [h] using hbound
  · simp only [h, if_neg, if_false, hfail s.attempts, Bool.false_eq_true,
      List.length_append]
    rw [Nat.mul_succ]
    omega

/-- Step lemma for the flush-count bound: one event preserves health, a
buffer strictly below batchSize, the balance between inserted, buffered
and assigned indices, and the inserted-rows bound. -/
theorem sinkStep_noFail_bound (runId : String) (B : Nat) (failAt : Nat → Bool)
    (now : String) (hfail : ∀ k, failAt k = false) (hB : 1 ≤ B)
    (s : SinkState) (e : SinkEvent)
    (herr : s.errored = false)
    (hbatch : s.batch.length < B)
    (hsum : s.inserted.length + s.batch.length = s.index)
    (hbound : s.inserted.length ≤ B * s.attempts) :
    (sinkStep runId B failAt now s e).errored = false
    ∧ (sinkStep runId B failAt now s e).batch.length < B
    ∧ (sinkStep runId B failAt now s e).inserted.length
        + (sinkStep runId B failAt now s e).batch.length
        = (sinkStep runId B failAt now s e).index
    ∧ (sinkStep runId B failAt now s e).inserted.length
        ≤ B * (sinkStep runId B failAt now s e).attempts := by
  cases e with
  | write m =>
      simp only [sinkStep, sinkWrite, herr, Bool.false_eq_true, if_false]
      have hpb : (sinkPush runId now s m).batch.length = s.batch.length + 1 := by
        simp [sinkPush]
      by_cases hb : B ≤ (sinkPush runId now s m).batch.length
      · obtain ⟨hthrew, hins⟩ := flushStep_noFail failAt hfail (sinkPush runId now s m)
        obtain ⟨hidx, herr1, hbatch1⟩ := flushStep_fields failAt (sinkPush runId now s m)
        have hble : (sinkPush runId now s m).batch.length ≤ B := by omega
        have hbnd := flushStep_noFail_bound failAt hfail (sinkPush runId now s m) B hble
          (by simpa [sinkPush] using hbound)
        simp only [hb, if_pos, hthrew, Bool.false_eq_true, if_false]
        have e1 : (flushStep failAt (sinkPush runId now s m)).1.inserted.length
            = s.inserted.length + (s.batch.length + 1) := by
          rw [hins, List.length_append]
          simp [sinkPush, sinkRecord]
        have e2 : (flushStep failAt (sinkPush runId now s m)).1.index = s.index + 1 := by
          rw [hidx]
          simp [sinkPush]
        refine ⟨by rw [herr1]; simp [sinkPush, herr],
          by rw [hbatch1]; simpa using hB, ?_, hbnd⟩
        rw [hbatch1, e1, e2]
        simp only [List.length_nil, Nat.add_zero]
        omega
      · simp only [hb, if_neg, if_false]
        have hfields : (sinkPush runId now s m).errored = false
            ∧ (sinkPush runId now s m).inserted = s.inserted
            ∧ (sinkPush runId now s m).index = s.index + 1
            ∧ (sinkPush runId now s m).attempts = s.attempts := by
          simp [sinkPush, herr]
        by_cases ht : (sinkPush runId now s m).timerSet = true
        · simp only [ht, if_pos, if_true]
          exact ⟨hfields.1, by omega, by rw [hfields.2.1, hfields.2.2.1, hpb]; omega,
            by rw [hfields.2.1, hfields.2.2.2]; exact hbound⟩
        · simp only [ht, Bool.false_eq_true, if_false]
          refine ⟨by simp [sinkPush, herr], by simp only [sinkPush]; simp; omega, ?_, ?_⟩
          · simp only [sinkPush]
            simp
            omega
          · simp only [sinkPush]
            simpa using hbound
  | timerFire =>
      simp only [sinkStep, herr, Bool.false_eq_true, if_false]
      by_cases ht : s.timerSet = true
      · obtain ⟨hthrew, hins⟩ := flushStep_noFail failAt hfail s
        obtain ⟨hidx, herr1, hbatch1⟩ := flushStep_fields failAt s
        have hbnd := flushStep_noFail_bound failAt hfail s B (by omega) hbound
        simp only [ht, if_pos, if_true]
        have e1 : (flushStep failAt s).1.inserted.length
            = s.inserted.length + s.batch.length := by
          rw [hins, List.length_append]
        refine ⟨by rw [herr1]; exact herr, by rw [hbatch1]; simpa using hB, ?_, hbnd⟩
        rw [hbatch1, e1, hidx]
        simp only [List.length_nil, Nat.add_zero]
        exact hsum
      · simp only [ht, Bool.false_eq_true, if_false]
        exact ⟨herr, hbatch, hsum, hbound⟩

/-- Fold lemma for the flush-count bound over a whole schedule. -/
theorem runSink_noFail_bound (runId : String) (B : Nat) (failAt : Nat → Bool)
    (now : String) (hfail : ∀ k, failAt k = false) (hB : 1 ≤ B)
    (events : List SinkEvent) (s : SinkState)
    (herr : s.errored = false)
    (hbatch : s.batch.length < B)
    (hsum : s.inserted.length + s.batch.length = s.index)
    (hbound : s.inserted.length ≤ B * s.attempts) :
    (runSink runId B failAt now events s).errored = false
    ∧ (runSink runId B failAt now events s).batch.length < B
    ∧ (runSink runId B failAt now events s).inserted.length
        + (runSink runId B failAt now events s).batch.length
        = (runSink runId B failAt now events s).index
    ∧ (runSink runId B failAt now events s).inserted.length
        ≤ B * (runSink runId B failAt now events s).attempts := by
  induction events generalizing s with
  | nil => exact ⟨herr, hbatch, hsum, hbound⟩
  | cons e rest ih =>
      obtain ⟨h1, h2, h3, h4⟩ :=
        sinkStep_noFail_bound runId B failAt now hfail hB s e herr hbatch hsum hbound
      exact ih (sinkStep runId B failAt now s e) h1 h2 h3 h4

/-- C8: with batchSize B at least one, a never-failing persistence
collaborator and N at least B received messages, at least N / B flushes
reach the collaborator before close, the remainder r buffered at close is
strictly below B, and the close-time final flush delivers exactly those r
buffered records, so all N records are persisted. -/
theorem recorder_flush_bound (runId : String) (B : Nat) (failAt : Nat → Bool)
    (now : String) (events : List SinkEvent) (hB : 1 ≤ B)
    (hfail : ∀ k, failAt k = false) (_hN : B ≤ writesCount events) :
    writesCount events / B ≤ (runSink runId B failAt now events sinkInit).attempts
    ∧ (runSink runId B failAt now events sinkInit).batch.length < B
    ∧ (closeSink failAt (runSink runId B failAt now events sinkInit)).1.inserted
        = (runSink runId B failAt now events sinkInit).inserted
          ++ (runSink runId B failAt now events sinkInit).batch
    ∧ ((closeSink failAt (runSink runId B failAt now events sinkInit)).1.inserted).length
        = writesCount events := by
  obtain ⟨herr, hbatch, hsum, hbound⟩ :=
    runSink_noFail_bound runId B failAt now hfail hB events sinkInit rfl
      (by simpa [sinkInit] using hB) (by simp [sinkInit]) (by simp [sinkInit])
  obtain ⟨-, -, hidx⟩ :=
    runSink_noFail_range runId B failAt now hfail events sinkInit rfl (by simp [sinkInit])
  have hclose : closeSink failAt (runSink runId B failAt now events sinkInit)
      = flushStep failAt (runSink runId B failAt now events sinkInit) := by
    unfold closeSink
    rw [if_neg (by simp [herr])]
  obtain ⟨-, hins⟩ := flushStep_noFail failAt hfail (runSink runId B failAt now events sinkInit)
  have hN0 : (runSink runId B failAt now events sinkInit).index = writesCount events := by
    simpa [sinkInit] using hidx
  refine ⟨?_, hbatch, by rw [hclose, hins], ?_⟩
  · rw [Nat.div_le_iff_le_mul_add_pred hB]
    omega
  · rw [hclose, hins, List.length_append]
    omega

/-- Witness for C8: five writes with batch size two give at least two
pre-close flushes, one buffered record at close, and all five persisted. -/
theorem recorder_flush_bound_witness :
    (5 : Nat) / 2 ≤ (runSink ("r1") 2 (fun _ => false) ("t0")
        (List.replicate 5 (SinkEvent.write { type := "assistant", subtype := none, sessionId := "" }))
        sinkInit).attempts
    ∧ (runSink ("r1") 2 (fun _ => false) ("t0")
        (List.replicate 5 (SinkEvent.write { type := "assistant", subtype := none, sessionId := "" }))
        sinkInit).batch.length < 2
    ∧ (closeSink (fun _ => false) (runSink ("r1") 2 (fun _ => false) ("t0")
        (List.replicate 5 (SinkEvent.write { type := "assistant", subtype := none, sessionId := "" }))
        sinkInit)).1.inserted
        = (runSink ("r1") 2 (fun _ => false) ("t0")
            (List.replicate 5 (SinkEvent.write { type := "assistant", subtype := none, sessionId := "" }))
            sinkInit).inserted
          ++ (runSink ("r1") 2 (fun _ => false) ("t0")
            (List.replicate 5 (SinkEvent.write { type := "assistant", subtype := none, sessionId := "" }))
            sinkInit).batch
    ∧ ((closeSink (fun _ => false) (runSink ("r1") 2 (fun _ => false) ("t0")
        (List.replicate 5 (SinkEvent.write { type := "assistant", subtype := none, sessionId := "" }))
        sinkInit)).1.inserted).length
        = writesCount (List.replicate 5 (SinkEvent.write { type := "assistant", subtype := none, sessionId := "" })) := by
  have h := recorder_flush_bound ("r1") 2 (fun _ => false) ("t0")
    (List.replicate 5 (SinkEvent.write { type := "assistant", subtype := none, sessionId := "" }))
    (by omega) (fun _ => rfl) (by decide)
  exact ⟨by simpa using h.1, h.2.1, h.2.2.1, h.2.2.2⟩

/-! ## C7: a failing size-triggered flush aborts the recording sink -/

/-- The sink after two writes with batch size one where the first insert
attempt rejects: the size-triggered flush failure errors the stream, the
second message is never accepted (index stays 1) and nothing is
persisted. -/
def c7sink : SinkState :=
  runSink ("r1") 1 (fun k => k == 0) ("t0")
    [SinkEvent.write { type := "assistant", subtype := none, sessionId := "" },
     SinkEvent.write { type := "assistant", subtype := none, sessionId := "" }] sinkInit

/-- C7 counterexample: a flush that fails during a size-triggered flush
is not swallowed — it errors the recording sink, which then neither
accepts nor records the subsequent message, contradicting the claim that
the stream always continues to accept and record. -/
theorem flush_failure_aborts_sink_counterexample :
    c7sink.errored = true ∧ c7sink.inserted = [] ∧ c7sink.index = 1
    ∧ writesCount
        [SinkEvent.write { type := "assistant", subtype := none, sessionId := "" },
         SinkEvent.write { type := "assistant", subtype := none, sessionId := "" }] = 2 :=
  ⟨rfl, rfl, rfl, rfl⟩

/-- C7 amended: persistence flush failures are fully isolated from the
run execution path (the result object, the runs table and the registry
after start, resume and fork do not depend on which insert attempts
fail), and a timer-triggered flush failure is swallowed: it never errors
the sink, which still accepts the next write. -/
theorem flush_failures_isolated_amended
    (p : StartParams) (pr : ResumeParams) (pf : ForkParams)
    (runId createdAt now : String) (outcome : StreamOutcome) (durationMs : Nat)
    (failAt failAt2 : Nat → Bool) (st : ManagerState)
    (rid2 now2 : String) (B : Nat) (s : SinkState) (m : SDKMessage) :
    ((start p runId createdAt now outcome durationMs failAt st).2
        = (start p runId createdAt now outcome durationMs failAt2 st).2)
    ∧ ((start p runId createdAt now outcome durationMs failAt st).1.db.runs
        = (start p runId createdAt now outcome durationMs failAt2 st).1.db.runs)
    ∧ ((start p runId createdAt now outcome durationMs failAt st).1.activeRuns
        = (start p runId createdAt now outcome durationMs failAt2 st).1.activeRuns)
    ∧ ((resume pr runId createdAt now outcome durationMs failAt st).2
        = (resume pr runId createdAt now outcome durationMs failAt2 st).2)
    ∧ ((resume pr runId createdAt now outcome durationMs failAt st).1.db.runs
        = (resume pr runId createdAt now outcome durationMs failAt2 st).1.db.runs)
    ∧ ((fork pf runId createdAt now outcome durationMs failAt st).2
        = (fork pf runId createdAt now outcome durationMs failAt2 st).2)
    ∧ ((fork pf runId createdAt now outcome durationMs failAt st).1.db.runs
        = (fork pf runId createdAt now outcome durationMs failAt2 st).1.db.runs)
    ∧ ((sinkStep rid2 B failAt now2 s SinkEvent.timerFire).errored = s.errored)
    ∧ (s.errored = false →
        (sinkStep rid2 B failAt now2 s (SinkEvent.write m)).index = s.index + 1) := by
  refine ⟨?_, ?_, ?_, ?_, ?_, ?_, ?_, ?_, ?_⟩
  · unfold start
    split
    · rfl
    · split
      · rfl
      · cases outcome <;> rfl
  · unfold start
    split
    · rfl
    · split
      · rfl
      · cases outcome <;> rfl
  · unfold start
    split
    · rfl
    · split
      · rfl
      · cases outcome <;> rfl
  · unfold resume
    split
    · rfl
    · split
      · rfl
      · split
        · rfl
        · cases outcome <;> rfl
  · unfold resume
    split
    · rfl
    · split
      · rfl
      · split
        · rfl
        · cases outcome <;> rfl
  · unfold fork
    split
    · rfl
    · split
      · rfl
      · split
        · rfl
        · cases outcome <;> rfl
  · unfold fork
    split
    · rfl
    · split
      · rfl
      · split
        · rfl
        · cases outcome <;> rfl
  · simp only [sinkStep]
    by_cases he : s.errored = true
    · simp [he]
    · obtain ⟨-, herr1, -⟩ := flushStep_fields failAt s
      by_cases ht : s.timerSet = true <;> simp [he, ht, herr1]
  · intro hserr
    simp only [sinkStep, sinkWrite, hserr, Bool.false_eq_true, if_false]
    obtain ⟨hidx, -, -⟩ := flushStep_fields failAt (sinkPush rid2 now2 s m)
    by_cases hb : B ≤ (sinkPush rid2 now2 s m).batch.length
    · simp only [hb, if_pos]
      by_cases hthrew : (flushStep failAt (sinkPush rid2 now2 s m)).2 = true
      · simp only [hthrew, if_pos, if_true]
        rw [show ({ (flushStep failAt (sinkPush rid2 now2 s m)).1 with errored := true } : SinkState).index
              = (flushStep failAt (sinkPush rid2 now2 s m)).1.index from rfl, hidx]
        simp [sinkPush]
      · simp only [hthrew, Bool.false_eq_true, if_false]
        rw [hidx]
        simp [sinkPush]
    · simp only [hb, if_neg, if_false]
      split <;> simp [sinkPush]

/-- Witness for C7 amended: the run-path isolation and the timer clause
instantiated concretely, and a healthy sink accepting a write. -/
theorem flush_failures_isolated_amended_witness :
    (sinkStep ("r1") 2 (fun k => k == 0) ("t0") sinkInit
        (SinkEvent.write { type := "assistant", subtype := none, sessionId := "" })).index
      = sinkInit.index + 1 := by
  have h := flush_failures_isolated_amended
    { cwd := "/tmp", prompt := "2+2" } { sessionId := "s1", prompt := "x" }
    { sessionId := "s1", prompt := "x" } ("r1") ("t0") ("t0")
    (StreamOutcome.ok []) 5 (fun k => k == 0) (fun _ => false)
    { db := { runs := [], runMessages := [] }, activeRuns := [], webhookEvents := [] }
    ("r1") ("t0") 2 sinkInit { type := "assistant", subtype := none, sessionId := "" }
  exact h.2.2.2.2.2.2.2.2 rfl

/-! ## Turn gate: the input channel stays open until a result is pulled -/

/-- Invariant of the turn-gate bridge: the promise is resolved only after
a result-typed message has been pulled, and the input channel closes only
after the promise resolves. -/
theorem gate_invariant (events : List GateEvent) (s : GateState)
    (hres : s.resultResolved = true → ∃ m ∈ s.pulled, m.type = "result")
    (hclosed : s.inputClosed = true → s.resultResolved = true) :
    ((events.foldl gateStep s).resultResolved = true →
        ∃ m ∈ (events.foldl gateStep s).pulled, m.type = "result")
    ∧ ((events.foldl gateStep s).inputClosed = true →
        (events.foldl gateStep s).resultResolved = true) := by
  induction events generalizing s with
  | nil => exact ⟨hres, hclosed⟩
  | cons e rest ih =>
      cases e with
      | pull m =>
          refine ih _ ?_ ?_
          · intro h
            simp only [gateStep, Bool.or_eq_true] at h
            cases h with
            | inl h =>
                obtain ⟨x, hx, hxt⟩ := hres h
                exact ⟨x, by simp [gateStep, List.mem_append, hx], hxt⟩
            | inr h =>
                exact ⟨m, by simp [gateStep], by simpa using h⟩
          · intro h
            simp only [gateStep] at h
            simp [gateStep, hclosed h]
      | genResume =>
          refine ih _ ?_ ?_
          · intro h
            simp only [gateStep] at h
            cases hr : s.resultResolved with
            | true => simpa [gateStep, hr] using hres hr
            | false => simp [hr] at h
          · intro h
            simp only [gateStep] at h ⊢
            cases hr : s.resultResolved with
            | true => simp [hr]
            | false => simp [hr] at h; exact absurd (hclosed h) (by simp [hr])

/-- C6: the Turn Gate never signals end-of-input before a terminal
result-type message has been pulled from the provider output: under any
scheduling of pulls and generator resumptions, a closed input channel
implies a previously pulled message of type result. -/
theorem turn_gate_input_open_until_result (events : List GateEvent)
    (h : (gateRun events).inputClosed = true) :
    ∃ m ∈ (gateRun events).pulled, m.type = "result" := by
  have inv := gate_invariant events gateInit
    (by intro hr; simp [gateInit] at hr) (by intro hc; simp [gateInit] at hc)
  exact inv.1 (inv.2 h)

/-- Witness for C6 at a concrete schedule: the provider yields a result
message, it is pulled, the generator resumes and completes. -/
theorem turn_gate_input_open_until_result_witness :
    (gateRun [GateEvent.pull { type := "result", subtype := some ("success"), sessionId := "s1" },
              GateEvent.genResume]).inputClosed = true
    ∧ ∃ m ∈ (gateRun [GateEvent.pull { type := "result", subtype := some ("success"), sessionId := "s1" },
              GateEvent.genResume]).pulled, m.type = "result" :=
  ⟨rfl, turn_gate_input_open_until_result _ rfl⟩

/-! ## C1: lifecycle notifications are never dispatched by the orchestrator -/

/-- C1 evaluation: no entry point of the run orchestrator ever dispatches
a lifecycle notification — the trace of webhook events is unchanged by
start, resume, fork and cancel on every input (dispatchWebhook is never
invoked by run-manager.ts, although LOG.md documents the integration). -/
theorem orchestrator_dispatches_no_lifecycle_notifications
    (p : StartParams) (pr : ResumeParams) (pf : ForkParams)
    (runId createdAt now : String) (outcome : StreamOutcome) (durationMs : Nat)
    (failAt : Nat → Bool) (st : ManagerState) (rid2 : String) :
    ((start p runId createdAt now outcome durationMs failAt st).1.webhookEvents
        = st.webhookEvents)
    ∧ ((resume pr runId createdAt now outcome durationMs failAt st).1.webhookEvents
        = st.webhookEvents)
    ∧ ((fork pf runId createdAt now outcome durationMs failAt st).1.webhookEvents
        = st.webhookEvents)
    ∧ ((cancel rid2 st).1.webhookEvents = st.webhookEvents) := by
  refine ⟨?_, ?_, ?_, ?_⟩
  · unfold start
    split
    · rfl
    · split
      · rfl
      · cases outcome <;> rfl
  · unfold resume
    split
    · rfl
    · split
      · rfl
      · split
        · rfl
        · cases outcome <;> rfl
  · unfold fork
    split
    · rfl
    · split
      · rfl
      · split
        · rfl
        · cases outcome <;> rfl
  · unfold cancel
    split <;> rfl

/-! ## C3: cancellation is not terminal -/

/-- Empty initial state. -/
def st0 : ManagerState :=
  { db := { runs := [], runMessages := [] }, activeRuns := [], webhookEvents := [] }

/-- State after admitting a fresh run r1. -/
def st1 : ManagerState :=
  admitRun ("r1") ("/tmp") ("2+2") RunMode.fresh none ("t0") st0

/-- State after cancelling r1 while it runs. -/
def st2 : ManagerState := (cancel ("r1") st1).1

/-- State after the still-running execution path of r1 observes the
aborted stream raise and runs its catch block. -/
def st3 : ManagerState :=
  (runBody ("r1") RunMode.fresh none
    (StreamOutcome.err [] ("This operation was aborted")) 5 (fun _ => false)
    ("t0") st2).1

/-- C3 counterexample: cancel succeeds and persists status cancelled, but
the in-flight catch handler of the execution path afterwards overwrites
the persisted status to error — so cancelled is not terminal. -/
theorem cancelled_overwritten_counterexample :
    (cancel ("r1") st1).2 = Except.ok ()
    ∧ ((st2.db.findRun? ("r1")).map (fun r => r.status) = some RunStatus.cancelled)
    ∧ ((st3.db.findRun? ("r1")).map (fun r => r.status) = some RunStatus.error) :=
  ⟨rfl, rfl, rfl⟩

/-! ## Processing-loop lemmas -/

/-- A non-init message leaves everything but the retained result
unchanged. -/
theorem loopStep_no_init (runId : String) (ls : LoopState) (x : SDKMessage)
    (hx : isInitMsg x = false) :
    (loopStep runId ls x).activeRuns = ls.activeRuns
    ∧ (loopStep runId ls x).dbRuns = ls.dbRuns
    ∧ (loopStep runId ls x).capturedSessionId = ls.capturedSessionId
    ∧ (loopStep runId ls x).sessionWrites = ls.sessionWrites := by
  simp only [loopStep, hx, Bool.false_eq_true, if_false]
  split <;> exact ⟨rfl, rfl, rfl, rfl⟩

/-- The init message performs the single capture: session id into the
matching ActiveRun entry and the matching run row, one write. -/
theorem loopStep_init (runId : String) (ls : LoopState) (x : SDKMessage)
    (hx : isInitMsg x = true) :
    (loopStep runId ls x).activeRuns
      = updateWhere ls.activeRuns (fun a => a.runId == runId)
          (fun a => { a with sessionId := x.sessionId })
    ∧ (loopStep runId ls x).dbRuns
      = updateWhere ls.dbRuns (fun r => r.id == runId)
          (fun r => { r with sessionId := x.sessionId })
    ∧ (loopStep runId ls x).capturedSessionId = x.sessionId
    ∧ (loopStep runId ls x).sessionWrites = ls.sessionWrites + 1 := by
  have hsys : x.type = "system" := by
    have h := ((Bool.and_eq_true _ _).mp hx).1
    exact beq_iff_eq.mp h
  have hres : (x.type == "result") = false := by
    simp [hsys]
  refine ⟨?_, ?_, ?_, ?_⟩ <;> simp [loopStep, hx, hres]

/-- Over a whole message list the loop never changes the retained result
when no message has type result. -/
theorem runLoop_no_result (runId : String) (msgs : List SDKMessage) (ls : LoopState)
    (h : ∀ x ∈ msgs, (x.type == "result") = false) :
    (runLoop runId msgs ls).resultMessage = ls.resultMessage := by
  induction msgs generalizing ls with
  | nil => rfl
  | cons x rest ih =>
      have hx := h x (by simp)
      have hstep : (loopStep runId ls x).resultMessage = ls.resultMessage := by
        simp only [loopStep, hx, Bool.false_eq_true, if_false]
        split <;> rfl
      rw [show runLoop runId (x :: rest) ls
            = runLoop runId rest (loopStep runId ls x) from rfl,
          ih (loopStep runId ls x) (fun y hy => h y (by simp [hy])), hstep]

/-- Over a whole init-free message list the loop leaves the registry, the
runs table, the captured session id and the write count unchanged. -/
theorem runLoop_no_init (runId : String) (msgs : List SDKMessage) (ls : LoopState)
    (h : ∀ x ∈ msgs, isInitMsg x = false) :
    (runLoop runId msgs ls).activeRuns = ls.activeRuns
    ∧ (runLoop runId msgs ls).dbRuns = ls.dbRuns
    ∧ (runLoop runId msgs ls).capturedSessionId = ls.capturedSessionId
    ∧ (runLoop runId msgs ls).sessionWrites = ls.sessionWrites := by
  induction msgs generalizing ls with
  | nil => exact ⟨rfl, rfl, rfl, rfl⟩
  | cons x rest ih =>
      obtain ⟨s1, s2, s3, s4⟩ := loopStep_no_init runId ls x (h x (by simp))
      obtain ⟨r1, r2, r3, r4⟩ := ih (loopStep runId ls x) (fun y hy => h y (by simp [hy]))
      rw [show runLoop runId (x :: rest) ls
            = runLoop runId rest (loopStep runId ls x) from rfl]
      exact ⟨r1.trans s1, r2.trans s2, r3.trans s3, r4.trans s4⟩

/-- Any projection of the run row found by id that ignores the session id
is invariant under the whole processing loop. -/
theorem runLoop_find_dbRun (runId : String) (msgs : List SDKMessage) (ls : LoopState)
    (proj : RunRow → β)
    (hproj : ∀ (r : RunRow) (sid : String), proj { r with sessionId := sid } = proj r) :
    ((runLoop runId msgs ls).dbRuns.find? (fun r => r.id == runId)).map proj
      = (ls.dbRuns.find? (fun r => r.id == runId)).map proj := by
  induction msgs generalizing ls with
  | nil => rfl
  | cons x rest ih =>
      rw [show runLoop runId (x :: rest) ls
            = runLoop runId rest (loopStep runId ls x) from rfl,
          ih (loopStep runId ls x)]
      by_cases hx : isInitMsg x = true
      · obtain ⟨-, hdb, -, -⟩ := loopStep_init runId ls x hx
        rw [hdb, find?_updateWhere ls.dbRuns (fun r => r.id == runId)
              (fun r => { r with sessionId := x.sessionId }) (fun r => rfl)]
        cases ls.dbRuns.find? (fun r => r.id == runId) <;> simp [hproj]
      · obtain ⟨-, hdb, -, -⟩ := loopStep_no_init runId ls x (by simpa using hx)
        rw [hdb]

/-! ## C9: single session capture -/

/-- C9: from run admission until the init-type message is observed by the
processing loop, the session id on the ActiveRun entry and on the run row
is the empty string with zero capture writes; once the single init-type
message is observed, both carry exactly its session id, written by
exactly one capture, and no later message changes that. -/
theorem session_captured_exactly_once
    (st : ManagerState) (runId cwd prompt : String) (mode : RunMode)
    (parent : Option String) (createdAt : String)
    (msgs1 msgs2 : List SDKMessage) (m : SDKMessage)
    (hact : ∀ a ∈ st.activeRuns, (a.runId == runId) = false)
    (hdb : ∀ r ∈ st.db.runs, (r.id == runId) = false)
    (h1 : ∀ x ∈ msgs1, isInitMsg x = false)
    (h2 : ∀ x ∈ msgs2, isInitMsg x = false)
    (hm : isInitMsg m = true) :
    (∀ n,
      (((runLoop runId (msgs1.take n)
          (initLoop (admitRun runId cwd prompt mode parent createdAt st))).activeRuns.find?
            (fun a => a.runId == runId)).map (fun a => a.sessionId) = some ("")
      ∧ (((runLoop runId (msgs1.take n)
          (initLoop (admitRun runId cwd prompt mode parent createdAt st))).dbRuns.find?
            (fun r => r.id == runId)).map (fun r => r.sessionId) = some (""))
      ∧ (runLoop runId (msgs1.take n)
          (initLoop (admitRun runId cwd prompt mode parent createdAt st))).sessionWrites = 0))
    ∧ (∀ n,
      (((runLoop runId (msgs1 ++ m :: msgs2.take n)
          (initLoop (admitRun runId cwd prompt mode parent createdAt st))).activeRuns.find?
            (fun a => a.runId == runId)).map (fun a => a.sessionId) = some m.sessionId
      ∧ (((runLoop runId (msgs1 ++ m :: msgs2.take n)
          (initLoop (admitRun runId cwd prompt mode parent createdAt st))).dbRuns.find?
            (fun r => r.id == runId)).map (fun r => r.sessionId) = some m.sessionId)
      ∧ (runLoop runId (msgs1 ++ m :: msgs2.take n)
          (initLoop (admitRun runId cwd prompt mode parent createdAt st))).sessionWrites = 1)) := by
  have hfa0 : (initLoop (admitRun runId cwd prompt mode parent createdAt st)).activeRuns.find?
      (fun a => a.runId == runId)
      = some { runId := runId, sessionId := "", mode := mode, status := RunStatus.running,
               startedAt := createdAt, aborted := false, webhookUrl := none } := by
    simp only [initLoop, admitRun]
    rw [find?_append_of_none _ _ _ hact]
    simp
  have hfd0 : (initLoop (admitRun runId cwd prompt mode parent createdAt st)).dbRuns.find?
      (fun r => r.id == runId)
      = some { id := runId, cwd := cwd, sessionId := "", parentSessionId := parent,
               mode := mode, status := RunStatus.running, prompt := prompt,
               resultType := none, resultJson := none, durationMs := none,
               createdAt := createdAt } := by
    simp only [initLoop, admitRun]
    rw [find?_append_of_none _ _ _ hdb]
    simp
  constructor
  · intro n
    obtain ⟨e1, e2, -, e4⟩ :=
      runLoop_no_init runId (msgs1.take n)
        (initLoop (admitRun runId cwd prompt mode parent createdAt st))
        (fun x hx => h1 x (List.take_subset n msgs1 hx))
    rw [e1, e2, e4, hfa0, hfd0]
    exact ⟨rfl, rfl, rfl⟩
  · intro n
    rw [show runLoop runId (msgs1 ++ m :: msgs2.take n)
          (initLoop (admitRun runId cwd prompt mode parent createdAt st))
        = runLoop runId (msgs2.take n)
            (loopStep runId
              (runLoop runId msgs1
                (initLoop (admitRun runId cwd prompt mode parent createdAt st))) m) by
      simp [runLoop, List.foldl_append]]
    obtain ⟨e1, e2, -, e4⟩ :=
      runLoop_no_init runId msgs1
        (initLoop (admitRun runId cwd prompt mode parent createdAt st)) h1
    obtain ⟨i1, i2, -, i4⟩ :=
      loopStep_init runId
        (runLoop runId msgs1
          (initLoop (admitRun runId cwd prompt mode parent createdAt st))) m hm
    obtain ⟨f1, f2, -, f4⟩ :=
      runLoop_no_init runId (msgs2.take n)
        (loopStep runId
          (runLoop runId msgs1
            (initLoop (admitRun runId cwd prompt mode parent createdAt st))) m)
        (fun x hx => h2 x (List.take_subset n msgs2 hx))
    rw [f1, f2, f4, i1, i2, i4, e1, e2, e4,
        find?_updateWhere
          ((initLoop (admitRun runId cwd prompt mode parent createdAt st)).activeRuns)
          (fun a => a.runId == runId)
          (fun a => { a with sessionId := m.sessionId }) (fun a => rfl),
        find?_updateWhere
          ((initLoop (admitRun runId cwd prompt mode parent createdAt st)).dbRuns)
          (fun r => r.id == runId)
          (fun r => { r with sessionId := m.sessionId }) (fun r => rfl),
        hfa0, hfd0]
    exact ⟨rfl, rfl, rfl⟩

/-- The spec scenario messages: an assistant message, the init-type
system message carrying s1, and a success result. -/
def wMsgA : SDKMessage := { type := "assistant", subtype := none, sessionId := "s1" }

/-- The init-type system message of the scenario. -/
def wMsgI : SDKMessage := { type := "system", subtype := some ("init"), sessionId := "s1" }

/-- The terminal result message of the scenario. -/
def wMsgR : SDKMessage := { type := "result", subtype := some ("success"), sessionId := "s1" }

/-- The loop state right after admitting run r1 on the empty state. -/
def wAdmit : LoopState :=
  initLoop (admitRun ("r1") ("/tmp") ("2+2") RunMode.fresh none ("t0") st0)

/-- Witness for C9 on the spec scenario stream: before the init message
the session id is empty with zero writes; after it both the entry and the
row carry s1 with exactly one write. -/
theorem session_captured_exactly_once_witness :
    ((((runLoop ("r1") ([wMsgA].take 1) wAdmit).activeRuns.find?
        (fun a => a.runId == ("r1" : String))).map (fun a => a.sessionId) = some (""))
      ∧ (((runLoop ("r1") ([wMsgA].take 1) wAdmit).dbRuns.find?
        (fun r => r.id == ("r1" : String))).map (fun r => r.sessionId) = some (""))
      ∧ (runLoop ("r1") ([wMsgA].take 1) wAdmit).sessionWrites = 0)
    ∧ ((((runLoop ("r1") ([wMsgA] ++ wMsgI :: [wMsgR].take 1) wAdmit).activeRuns.find?
        (fun a => a.runId == ("r1" : String))).map (fun a => a.sessionId) = some wMsgI.sessionId)
      ∧ (((runLoop ("r1") ([wMsgA] ++ wMsgI :: [wMsgR].take 1) wAdmit).dbRuns.find?
        (fun r => r.id == ("r1" : String))).map (fun r => r.sessionId) = some wMsgI.sessionId)
      ∧ (runLoop ("r1") ([wMsgA] ++ wMsgI :: [wMsgR].take 1) wAdmit).sessionWrites = 1) := by
  have h := session_captured_exactly_once st0 ("r1") ("/tmp") ("2+2") RunMode.fresh none
    ("t0") [wMsgA] [wMsgR] wMsgI (by simp [st0]) (by simp [st0]) (by decide) (by decide)
    (by decide)
  exact ⟨h.1 1, h.2 1⟩

/-- Combined lookup lemma: a projection of the run row found by id after
the terminal update that follows the processing loop, provided the
update preserves the id and the projection of the updated row ignores
the session id. -/
theorem find?_updateWhere_loop (runId : String) (msgs : List SDKMessage)
    (ls : LoopState) (f : RunRow → RunRow) (proj : RunRow → β)
    (hfq : ∀ r, ((f r).id == runId) = (r.id == runId))
    (hstable : ∀ (r : RunRow) (sid : String),
      proj (f { r with sessionId := sid }) = proj (f r)) :
    ((updateWhere (runLoop runId msgs ls).dbRuns (fun r => r.id == runId) f).find?
        (fun r => r.id == runId)).map proj
      = (ls.dbRuns.find? (fun r => r.id == runId)).map (fun r => proj (f r)) := by
  rw [find?_updateWhere _ _ f hfq, Option.map_map]
  exact runLoop_find_dbRun runId msgs ls (proj ∘ f) (fun r sid => hstable r sid)

/-- Every execution of the shared run body resolves to a result object;
when the stream raised, the result has status error carrying the raised
message. -/
theorem runBody_ok (runId : String) (mode : RunMode) (parent : Option String)
    (outcome : StreamOutcome) (durationMs : Nat) (failAt : Nat → Bool)
    (now : String) (st : ManagerState) :
    ∃ r, (runBody runId mode parent outcome durationMs failAt now st).2 = Except.ok r
      ∧ (∀ msgs emsg, outcome = StreamOutcome.err msgs emsg →
          r.status = RunStatus.error ∧ r.error = some emsg) := by
  cases outcome with
  | ok msgs =>
      refine ⟨_, rfl, ?_⟩
      intro msgs2 emsg h
      simp at h
  | err msgs emsg =>
      refine ⟨_, rfl, ?_⟩
      intro msgs2 emsg2 h
      injection h with h1 h2
      subst h2
      exact ⟨rfl, rfl⟩

/-! ## C2: failure semantics of the entry points -/

/-- C2: start, resume and fork throw only pre-execution errors
(ValidationError for start; ValidationError or SessionNotFound for resume
and fork), always without touching any state; once admitted, every call
resolves to a result object, and a provider or stream exception is
converted into status error with the exception message, never
re-thrown. -/
theorem failure_semantics
    (p : StartParams) (pr : ResumeParams) (pf : ForkParams)
    (runId createdAt now : String) (outcome : StreamOutcome) (durationMs : Nat)
    (failAt : Nat → Bool) (st : ManagerState) :
    (∀ e, (start p runId createdAt now outcome durationMs failAt st).2 = Except.error e →
        (∃ f, e = RunError.validation f)
        ∧ (start p runId createdAt now outcome durationMs failAt st).1 = st)
    ∧ (isBlank p.prompt = false → isBlank p.cwd = false →
        ∃ r, (start p runId createdAt now outcome durationMs failAt st).2 = Except.ok r
          ∧ (∀ msgs emsg, outcome = StreamOutcome.err msgs emsg →
              r.status = RunStatus.error ∧ r.error = some emsg))
    ∧ (∀ e, (resume pr runId createdAt now outcome durationMs failAt st).2 = Except.error e →
        ((∃ f, e = RunError.validation f) ∨ e = RunError.sessionNotFound pr.sessionId)
        ∧ (resume pr runId createdAt now outcome durationMs failAt st).1 = st)
    ∧ (isBlank pr.prompt = false → isBlank pr.sessionId = false →
        ∀ fr, st.db.runs.find? (fun r => r.sessionId == pr.sessionId) = some fr →
        ∃ r, (resume pr runId createdAt now outcome durationMs failAt st).2 = Except.ok r
          ∧ (∀ msgs emsg, outcome = StreamOutcome.err msgs emsg →
              r.status = RunStatus.error ∧ r.error = some emsg))
    ∧ (∀ e, (fork pf runId createdAt now outcome durationMs failAt st).2 = Except.error e →
        ((∃ f, e = RunError.validation f) ∨ e = RunError.sessionNotFound pf.sessionId)
        ∧ (fork pf runId createdAt now outcome durationMs failAt st).1 = st)
    ∧ (isBlank pf.prompt = false → isBlank pf.sessionId = false →
        ∀ fr, st.db.runs.find? (fun r => r.sessionId == pf.sessionId) = some fr →
        ∃ r, (fork pf runId createdAt now outcome durationMs failAt st).2 = Except.ok r
          ∧ (∀ msgs emsg, outcome = StreamOutcome.err msgs emsg →
              r.status = RunStatus.error ∧ r.error = some emsg)) := by
  refine ⟨?_, ?_, ?_, ?_, ?_, ?_⟩
  · intro e he
    cases h1 : isBlank p.prompt with
    | true =>
        rw [start, if_pos h1] at he
        exact ⟨⟨"prompt", (Except.error.inj he).symm⟩, by rw [start, if_pos h1]⟩
    | false =>
        cases h2 : isBlank p.cwd with
        | true =>
            rw [start, if_neg (by simp [h1]), if_pos h2] at he
            exact ⟨⟨"cwd", (Except.error.inj he).symm⟩,
              by rw [start, if_neg (by simp [h1]), if_pos h2]⟩
        | false =>
            rw [start, if_neg (by simp [h1]), if_neg (by simp [h2])] at he
            obtain ⟨r, hr, -⟩ := runBody_ok runId RunMode.fresh none outcome durationMs
              failAt now (admitRun runId p.cwd p.prompt RunMode.fresh none createdAt st)
            rw [hr] at he
            simp at he
  · intro h1 h2
    rw [start, if_neg (by simp [h1]), if_neg (by simp [h2])]
    exact runBody_ok runId RunMode.fresh none outcome durationMs failAt now
      (admitRun runId p.cwd p.prompt RunMode.fresh none createdAt st)
  · intro e he
    cases h1 : isBlank pr.prompt with
    | true =>
        rw [resume, if_pos h1] at he
        exact ⟨Or.inl ⟨"prompt", (Except.error.inj he).symm⟩, by rw [resume, if_pos h1]⟩
    | false =>
        cases h2 : isBlank pr.sessionId with
        | true =>
            rw [resume, if_neg (by simp [h1]), if_pos h2] at he
            exact ⟨Or.inl ⟨"sessionId", (Except.error.inj he).symm⟩,
              by rw [resume, if_neg (by simp [h1]), if_pos h2]⟩
        | false =>
            cases hf : st.db.runs.find? (fun r => r.sessionId == pr.sessionId) with
            | none =>
                rw [resume, if_neg (by simp [h1]), if_neg (by simp [h2]), hf] at he
                exact ⟨Or.inr (Except.error.inj he).symm,
                  by rw [resume, if_neg (by simp [h1]), if_neg (by simp [h2]), hf]⟩
            | some fr =>
                rw [resume, if_neg (by simp [h1]), if_neg (by simp [h2]), hf] at he
                obtain ⟨r, hr, -⟩ := runBody_ok runId RunMode.resume (some pr.sessionId)
                  outcome durationMs failAt now
                  (admitRun runId fr.cwd pr.prompt RunMode.resume (some pr.sessionId)
                    createdAt st)
                rw [hr] at he
                simp at he
  · intro h1 h2 fr hf
    rw [resume, if_neg (by simp [h1]), if_neg (by simp [h2]), hf]
    exact runBody_ok runId RunMode.resume (some pr.sessionId) outcome durationMs failAt now
      (admitRun runId fr.cwd pr.prompt RunMode.resume (some pr.sessionId) createdAt st)
  · intro e he
    cases h1 : isBlank pf.prompt with
    | true =>
        rw [fork, if_pos h1] at he
        exact ⟨Or.inl ⟨"prompt", (Except.error.inj he).symm⟩, by rw [fork, if_pos h1]⟩
    | false =>
        cases h2 : isBlank pf.sessionId with
        | true =>
            rw [fork, if_neg (by simp [h1]), if_pos h2] at he
            exact ⟨Or.inl ⟨"sessionId", (Except.error.inj he).symm⟩,
              by rw [fork, if_neg (by simp [h1]), if_pos h2]⟩
        | false =>
            cases hf : st.db.runs.find? (fun r => r.sessionId == pf.sessionId) with
            | none =>
                rw [fork, if_neg (by simp [h1]), if_neg (by simp [h2]), hf] at he
                exact ⟨Or.inr (Except.error.inj he).symm,
                  by rw [fork, if_neg (by simp [h1]), if_neg (by simp [h2]), hf]⟩
            | some fr =>
                rw [fork, if_neg (by simp [h1]), if_neg (by simp [h2]), hf] at he
                obtain ⟨r, hr, -⟩ := runBody_ok runId RunMode.fork (some pf.sessionId)
                  outcome durationMs failAt now
                  (admitRun runId fr.cwd pf.prompt RunMode.fork (some pf.sessionId)
                    createdAt st)
                rw [hr] at he
                simp at he
  · intro h1 h2 fr hf
    rw [fork, if_neg (by simp [h1]), if_neg (by simp [h2]), hf]
    exact runBody_ok runId RunMode.fork (some pf.sessionId) outcome durationMs failAt now
      (admitRun runId fr.cwd pf.prompt RunMode.fork (some pf.sessionId) createdAt st)

/-- Witness for C2: a concrete start call whose stream raises resolves to
a result object with status error carrying the raised message. -/
theorem failure_semantics_witness :
    ∃ r, (start { cwd := "/tmp", prompt := "2+2" } ("r1") ("t0") ("t0")
        (StreamOutcome.err [] ("boom")) 5 (fun _ => false) st0).2 = Except.ok r
      ∧ r.status = RunStatus.error ∧ r.error = some ("boom") := by
  obtain ⟨r, hr, himp⟩ :=
    (failure_semantics { cwd := "/tmp", prompt := "2+2" }
      { sessionId := "s1", prompt := "x" } { sessionId := "s1", prompt := "x" }
      ("r1") ("t0") ("t0") (StreamOutcome.err [] ("boom")) 5 (fun _ => false) st0).2.1
      (by decide) (by decide)
  exact ⟨r, hr, (himp [] ("boom") rfl).1, (himp [] ("boom") rfl).2⟩

/-! ## C4: resume and fork on a missing session write nothing -/

/-- C4: a resume or fork whose session id matches no run row fails with
SessionNotFound before any provider call, leaving both tables untouched
(the returned state is exactly the input state). -/
theorem session_not_found_no_rows
    (pr : ResumeParams) (pf : ForkParams) (runId createdAt now : String)
    (outcome : StreamOutcome) (durationMs : Nat) (failAt : Nat → Bool)
    (st : ManagerState)
    (hvp : isBlank pr.prompt = false) (hvs : isBlank pr.sessionId = false)
    (hvp2 : isBlank pf.prompt = false) (hvs2 : isBlank pf.sessionId = false)
    (hmiss : ∀ r ∈ st.db.runs, (r.sessionId == pr.sessionId) = false)
    (hmiss2 : ∀ r ∈ st.db.runs, (r.sessionId == pf.sessionId) = false) :
    (resume pr runId createdAt now outcome durationMs failAt st
        = (st, Except.error (RunError.sessionNotFound pr.sessionId)))
    ∧ ((resume pr runId createdAt now outcome durationMs failAt st).1.db.runs = st.db.runs)
    ∧ ((resume pr runId createdAt now outcome durationMs failAt st).1.db.runMessages
        = st.db.runMessages)
    ∧ (fork pf runId createdAt now outcome durationMs failAt st
        = (st, Except.error (RunError.sessionNotFound pf.sessionId)))
    ∧ ((fork pf runId createdAt now outcome durationMs failAt st).1.db.runs = st.db.runs)
    ∧ ((fork pf runId createdAt now outcome durationMs failAt st).1.db.runMessages
        = st.db.runMessages) := by
  have hnone : st.db.runs.find? (fun r => r.sessionId == pr.sessionId) = none :=
    List.find?_eq_none.mpr (fun x hx => by simp [hmiss x hx])
  have hnone2 : st.db.runs.find? (fun r => r.sessionId == pf.sessionId) = none :=
    List.find?_eq_none.mpr (fun x hx => by simp [hmiss2 x hx])
  have h1 : resume pr runId createdAt now outcome durationMs failAt st
      = (st, Except.error (RunError.sessionNotFound pr.sessionId)) := by
    rw [resume, if_neg (by simp [hvp]), if_neg (by simp [hvs]), hnone]
  have h2 : fork pf runId createdAt now outcome durationMs failAt st
      = (st, Except.error (RunError.sessionNotFound pf.sessionId)) := by
    rw [fork, if_neg (by simp [hvp2]), if_neg (by simp [hvs2]), hnone2]
  exact ⟨h1, by rw [h1], by rw [h1], h2, by rw [h2], by rw [h2]⟩

/-- A completed run row belonging to a session named other. -/
def rowOther : RunRow :=
  { id := "r0", cwd := "/tmp", sessionId := "other",
    parentSessionId := none, mode := RunMode.fresh, status := RunStatus.completed,
    prompt := "p", resultType := none, resultJson := none, durationMs := some 1,
    createdAt := "t" }

/-- A one-row state whose only session is named other. -/
def stOther : ManagerState :=
  { db := { runs := [rowOther], runMessages := [] },
    activeRuns := [], webhookEvents := [] }

/-- Witness for C4: resuming and forking the missing session on a
populated state rejects with SessionNotFound and leaves both tables as
they were. -/
theorem session_not_found_no_rows_witness :
    (resume { sessionId := "missing", prompt := "x" } ("r1") ("t0") ("t0")
        (StreamOutcome.ok []) 5 (fun _ => false) stOther
      = (stOther, Except.error (RunError.sessionNotFound ("missing"))))
    ∧ ((resume { sessionId := "missing", prompt := "x" } ("r1") ("t0") ("t0")
        (StreamOutcome.ok []) 5 (fun _ => false) stOther).1.db.runs = stOther.db.runs)
    ∧ ((fork { sessionId := "missing", prompt := "x" } ("r1") ("t0") ("t0")
        (StreamOutcome.ok []) 5 (fun _ => false) stOther).1.db.runMessages
        = stOther.db.runMessages) := by
  have h := session_not_found_no_rows
    { sessionId := "missing", prompt := "x" } { sessionId := "missing", prompt := "x" }
    ("r1") ("t0") ("t0") (StreamOutcome.ok []) 5 (fun _ => false) stOther
    (by decide) (by decide) (by decide) (by decide)
    (by decide) (by decide)
  exact ⟨h.1, h.2.1, h.2.2.2.2.2⟩

/-! ## C3 amended: cancel semantics, without terminality -/

/-- C3 amended: cancel without an ActiveRun entry fails with
RunAlreadyCompleted and changes nothing; cancel on a running run returns
ok, persists status cancelled on the run row and removes the registry
entry.  However cancelled is not terminal: whenever the still-running
execution path subsequently observes the aborted stream raise, its catch
block overwrites the persisted status to error. -/
theorem cancel_semantics_amended (st : ManagerState) (runId : String) :
    (getActiveRun st runId = none →
        cancel runId st = (st, Except.error (RunError.runAlreadyCompleted runId)))
    ∧ (∀ a, getActiveRun st runId = some a →
        ((cancel runId st).2 = Except.ok ()
          ∧ (((cancel runId st).1.db.findRun? runId).map (fun r => r.status))
              = ((st.db.findRun? runId).map (fun _ => RunStatus.cancelled))
          ∧ getActiveRun (cancel runId st).1 runId = none))
    ∧ (∀ (mode : RunMode) (parent : Option String) (msgs : List SDKMessage)
        (emsg : String) (durationMs : Nat) (failAt : Nat → Bool) (now : String)
        (st2 : ManagerState),
        (((runBody runId mode parent (StreamOutcome.err msgs emsg) durationMs failAt
            now st2).1.db.findRun? runId).map (fun r => r.status))
          = ((st2.db.findRun? runId).map (fun _ => RunStatus.error))) := by
  refine ⟨?_, ?_, ?_⟩
  · intro h
    rw [cancel, show st.activeRuns.find? (fun a => a.runId == runId) = none from h]
  · intro a ha
    have hf : st.activeRuns.find? (fun a => a.runId == runId) = some a := ha
    refine ⟨by rw [cancel, hf], ?_, ?_⟩
    · rw [cancel, hf]
      unfold DB.findRun?
      rw [find?_updateWhere st.db.runs (fun r => r.id == runId)
            (fun r => { r with status := RunStatus.cancelled }) (fun r => rfl),
          Option.map_map]
      rfl
    · rw [cancel, hf]
      unfold getActiveRun
      exact find?_filter_not _ _
  · intro mode parent msgs emsg durationMs failAt now st2
    simp only [runBody]
    unfold DB.findRun?
    refine (find?_updateWhere_loop runId msgs (initLoop st2) _ _ ?_ ?_).trans ?_
    · exact fun r => rfl
    · exact fun r sid => rfl
    · rfl

/-- Witness for C3 amended: cancelling on the empty state rejects with
RunAlreadyCompleted; cancelling the admitted run r1 returns ok, persists
cancelled and deregisters. -/
theorem cancel_semantics_amended_witness :
    cancel ("r1") st0 = (st0, Except.error (RunError.runAlreadyCompleted ("r1")))
    ∧ ((cancel ("r1") st1).2 = Except.ok ()
        ∧ (((cancel ("r1") st1).1.db.findRun? ("r1")).map (fun r => r.status))
            = ((st1.db.findRun? ("r1")).map (fun _ => RunStatus.cancelled))
        ∧ getActiveRun (cancel ("r1") st1).1 ("r1") = none) := by
  refine ⟨(cancel_semantics_amended st0 ("r1")).1 rfl, ?_⟩
  exact (cancel_semantics_amended st1 ("r1")).2.1 _ rfl

/-! ## C10: a stream with no result message yields status completed -/

/-- C10: a start whose stream ends cleanly without any result-type
message is classified completed: the result object has status completed,
no result value and no error; the persisted row keeps resultType null
(the update skips the undefined field), gets resultJson null explicitly,
status completed and the measured duration. -/
theorem no_result_stream_completed
    (p : StartParams) (runId createdAt now : String) (msgs : List SDKMessage)
    (durationMs : Nat) (failAt : Nat → Bool) (st : ManagerState)
    (hvp : isBlank p.prompt = false) (hvc : isBlank p.cwd = false)
    (hfresh : ∀ r ∈ st.db.runs, (r.id == runId) = false)
    (hnores : ∀ x ∈ msgs, (x.type == ("result" : String)) = false) :
    ((start p runId createdAt now (StreamOutcome.ok msgs) durationMs failAt st).2.toOption.map
        (fun r => r.status) = some RunStatus.completed)
    ∧ ((start p runId createdAt now (StreamOutcome.ok msgs) durationMs failAt st).2.toOption.map
        (fun r => r.result) = some none)
    ∧ ((start p runId createdAt now (StreamOutcome.ok msgs) durationMs failAt st).2.toOption.map
        (fun r => r.error) = some none)
    ∧ (((start p runId createdAt now (StreamOutcome.ok msgs) durationMs failAt st).1.db.findRun?
        runId).map (fun r => r.status) = some RunStatus.completed)
    ∧ (((start p runId createdAt now (StreamOutcome.ok msgs) durationMs failAt st).1.db.findRun?
        runId).map (fun r => r.resultType) = some none)
    ∧ (((start p runId createdAt now (StreamOutcome.ok msgs) durationMs failAt st).1.db.findRun?
        runId).map (fun r => r.resultJson) = some none)
    ∧ (((start p runId createdAt now (StreamOutcome.ok msgs) durationMs failAt st).1.db.findRun?
        runId).map (fun r => r.durationMs) = some (some durationMs)) := by
  have hres : (runLoop runId msgs
      (initLoop (admitRun runId p.cwd p.prompt RunMode.fresh none createdAt st))).resultMessage
      = none :=
    runLoop_no_result _ _ _ hnores
  have hfind0 : (initLoop (admitRun runId p.cwd p.prompt RunMode.fresh none createdAt
      st)).dbRuns.find? (fun r => r.id == runId)
      = some { id := runId, cwd := p.cwd, sessionId := "", parentSessionId := none,
               mode := RunMode.fresh, status := RunStatus.running, prompt := p.prompt,
               resultType := none, resultJson := none, durationMs := none,
               createdAt := createdAt } := by
    simp only [initLoop, admitRun]
    rw [find?_append_of_none _ _ _ hfresh]
    simp
  rw [start, if_neg (by simp [hvp]), if_neg (by simp [hvc])]
  simp only [runBody]
  refine ⟨?_, ?_, ?_, ?_, ?_, ?_, ?_⟩
  · simp [Except.toOption, hres]
  · simp [Except.toOption, hres]
  · simp [Except.toOption, hres]
  · unfold DB.findRun?
    refine (find?_updateWhere_loop runId msgs
        (initLoop (admitRun runId p.cwd p.prompt RunMode.fresh none createdAt st))
        _ _ ?_ ?_).trans ?_
    · exact fun r => rfl
    · exact fun r sid => rfl
    · rw [hfind0]
      simp [hres]
  · unfold DB.findRun?
    refine (find?_updateWhere_loop runId msgs
        (initLoop (admitRun runId p.cwd p.prompt RunMode.fresh none createdAt st))
        _ _ ?_ ?_).trans ?_
    · exact fun r => rfl
    · exact fun r sid => rfl
    · rw [hfind0]
      simp [hres]
  · unfold DB.findRun?
    refine (find?_updateWhere_loop runId msgs
        (initLoop (admitRun runId p.cwd p.prompt RunMode.fresh none createdAt st))
        _ _ ?_ ?_).trans ?_
    · exact fun r => rfl
    · exact fun r sid => rfl
    · rw [hfind0]
      simp [hres]
  · unfold DB.findRun?
    refine (find?_updateWhere_loop runId msgs
        (initLoop (admitRun runId p.cwd p.prompt RunMode.fresh none createdAt st))
        _ _ ?_ ?_).trans ?_
    · exact fun r => rfl
    · exact fun r sid => rfl
    · rw [hfind0]
      simp [hres]

/-- Witness for C10: a concrete start on the empty state whose stream
yields only an init and an assistant message resolves completed with no
result and a row keeping resultType and resultJson null. -/
theorem no_result_stream_completed_witness :
    ((start { cwd := "/tmp", prompt := "2+2" } ("r1") ("t0") ("t0")
        (StreamOutcome.ok [wMsgI, wMsgA]) 5 (fun _ => false) st0).2.toOption.map
        (fun r => r.status) = some RunStatus.completed)
    ∧ ((start { cwd := "/tmp", prompt := "2+2" } ("r1") ("t0") ("t0")
        (StreamOutcome.ok [wMsgI, wMsgA]) 5 (fun _ => false) st0).2.toOption.map
        (fun r => r.result) = some none)
    ∧ (((start { cwd := "/tmp", prompt := "2+2" } ("r1") ("t0") ("t0")
        (StreamOutcome.ok [wMsgI, wMsgA]) 5 (fun _ => false) st0).1.db.findRun?
        ("r1")).map (fun r => r.status) = some RunStatus.completed)
    ∧ (((start { cwd := "/tmp", prompt := "2+2" } ("r1") ("t0") ("t0")
        (StreamOutcome.ok [wMsgI, wMsgA]) 5 (fun _ => false) st0).1.db.findRun?
        ("r1")).map (fun r => r.resultType) = some none)
    ∧ (((start { cwd := "/tmp", prompt := "2+2" } ("r1") ("t0") ("t0")
        (StreamOutcome.ok [wMsgI, wMsgA]) 5 (fun _ => false) st0).1.db.findRun?
        ("r1")).map (fun r => r.resultJson) = some none) := by
  have h := no_result_stream_completed { cwd := "/tmp", prompt := "2+2" }
    ("r1") ("t0") ("t0") [wMsgI, wMsgA] 5 (fun _ => false) st0
    (by decide) (by decide) (by simp [st0]) (by decide)
  exact ⟨h.1, h.2.1, h.2.2.2.1, h.2.2.2.2.1, h.2.2.2.2.2.1⟩

end CCManager
